import Mathlib

/-!
Verification of the trigger pipeline of the "annoying coin" launcher.

The definitions below are shallow embeddings of the JavaScript sources:
  * `processTradeEvent`     — src/monitor.js (WebSocket trade-event trigger filter)
  * `processTransaction`    — the RPC-polling monitor variant bundled in
                              src/walletManager.js (its third concatenated segment)
  * `launchAnnoyingCoin`    — src/launcher.js
  * `getNextWallet`, `generateNewWallet`, `incrementWalletLaunches`
                            — src/walletManager.js (wallet pool)

Machine conventions: SOL amounts are rationals (the sources only compare and
add them); timestamps are integers (milliseconds); an absent or non-numeric
JavaScript value (`undefined` / `NaN`) is `Option.none`, and `jsLtOpt` mirrors
the JavaScript comparison semantics where any comparison against such a value
is `false`.  External effects (chain reads, HTTP calls, the database) are
inputs: each suspending call's result is a field of an environment record, and
persisted collections are fields of the state records.
-/

namespace Ann

/-- A launch outcome record as built by `launchAnnoyingCoin` in src/launcher.js:
the success branch fills signature/mint/name/symbol/wallet/trigger fields, the
catch branch fills only `error` and `timestamp`. -/
structure LaunchRecord where
  success : Bool
  signature : Option String := none
  mint : Option String := none
  name : Option String := none
  symbol : Option String := none
  wallet : Option String := none
  triggerTx : Option String := none
  triggerBuyAmount : Option ℚ := none
  triggerBuyer : Option String := none
  error : Option String := none
  timestamp : ℤ := 0
deriving DecidableEq

/-- A PumpPortal trade message as consumed by `processTradeEvent`
(src/monitor.js).  `solAmount = none` models a message whose `solAmount`
field is absent or not a number. -/
structure Trade where
  mint : String
  txType : String
  signature : String
  solAmount : Option ℚ
  traderPublicKey : String
deriving DecidableEq

/-- Configuration constants of src/monitor.js (module-level `const`s read from
the environment). -/
structure MonitorConfig where
  targetCA : String
  LAUNCH_COOLDOWN : ℤ
  MIN_BUY_AMOUNT : ℚ
  TEST_MODE : Bool
  MAX_TEST_LAUNCHES : ℕ
deriving DecidableEq

/-- Module-level mutable state of src/monitor.js.  `processedTxs` is the JS
`Set` in insertion order; `fbLaunches` models the Firebase `launches`
collection written by `saveLaunch` (most recent first). -/
structure MonitorState where
  processedTxs : List String
  lastLaunchTime : ℤ
  sessionLaunches : ℕ
  totalLaunches : ℕ
  recentLaunches : List LaunchRecord
  fbLaunches : List LaunchRecord
deriving DecidableEq

/-- The decision taken by `processTradeEvent` for one incoming trade message.
`Launched b` means `launchAnnoyingCoin` was invoked and returned a record with
`success = b`.  `TypeErrorCrash` is the uncaught `TypeError` thrown by
`buyAmountSol.toFixed(4)` at monitor.js line 82 when the amount passed the
`<` gate without being a number: the async handler rejects there, before the
test-mode and cooldown checks and before any launch. -/
inductive Outcome
  | NotTarget
  | NotBuy
  | DuplicateSkip
  | BelowThreshold
  | TypeErrorCrash
  | TestModeSkip
  | CooldownSkip
  | Launched (success : Bool)
deriving DecidableEq

/-- Holds (as `true`) exactly when the outcome is a launch invocation. -/
def isLaunch : Outcome → Bool
  | .Launched _ => true
  | _ => false

/-- JavaScript `<` applied to a possibly-undefined left operand: `none`
models a `solAmount` that is absent or not a number (a non-numeric string,
bool, object, …), whose comparison against a number is `false`.  A JSON
`null` coerces to `0` under `<`, so it is `some 0`; `JSON.parse` cannot
produce `NaN`. -/
def jsLtOpt : Option ℚ → ℚ → Bool
  | none, _ => false
  | some a, b => decide (a < b)

/-- The dedupe-window insert of both monitor variants: add the signature to
the back of the insertion-ordered set, and when the set has grown past 1000
entries keep only the 500 most recently inserted (`Array.from(set).slice(-500)`). -/
def insertTrim (l : List String) (sig : String) : List String :=
  let txs0 := l ++ [sig]
  if txs0.length > 1000 then txs0.drop (txs0.length - 500) else txs0

/-- Embedding of `processTradeEvent(trade)` from src/monitor.js.  `now` is the value of
`Date.now()` during this handler run and `launchRes` is the record that
`await launchAnnoyingCoin(...)` would return (the launcher itself is modelled
separately below; at this level its result is an input).  A non-numeric
`solAmount` that passes the `<` gate hits `buyAmountSol.toFixed(4)` at line
82, which throws: the handler aborts with only the dedupe insert done
(`TypeErrorCrash`). -/
def processTradeEvent (cfg : MonitorConfig) (st : MonitorState) (trade : Trade)
    (now : ℤ) (launchRes : LaunchRecord) : Outcome × MonitorState :=
  if trade.mint ≠ cfg.targetCA then (.NotTarget, st)
  else if trade.txType ≠ ("buy") then (.NotBuy, st)
  else if trade.signature ∈ st.processedTxs then (.DuplicateSkip, st)
  else
    let st1 := { st with processedTxs := insertTrim st.processedTxs trade.signature }
    if jsLtOpt trade.solAmount cfg.MIN_BUY_AMOUNT then (.BelowThreshold, st1)
    else match trade.solAmount with
    | none => (.TypeErrorCrash, st1)
    | some _ =>
      if cfg.TEST_MODE ∧ st1.sessionLaunches ≥ cfg.MAX_TEST_LAUNCHES then (.TestModeSkip, st1)
      else if now - st1.lastLaunchTime < cfg.LAUNCH_COOLDOWN then (.CooldownSkip, st1)
      else
      let st2 := { st1 with lastLaunchTime := now }
      if launchRes.success then
        let result := { launchRes with
          triggerBuyAmount := trade.solAmount,
          triggerBuyer := some trade.traderPublicKey }
        let rl0 := result :: st2.recentLaunches
        let rl := if rl0.length > 100 then rl0.take 100 else rl0
        (.Launched true,
          { st2 with
            totalLaunches := st2.totalLaunches + 1,
            sessionLaunches := st2.sessionLaunches + 1,
            recentLaunches := rl,
            fbLaunches := result :: st2.fbLaunches })
      else (.Launched false, st2)

/-- Processing a sequence of trade messages, each with its `Date.now()` value
and the launcher result it would observe. -/
def runTrades (cfg : MonitorConfig) (st : MonitorState) :
    List (Trade × ℤ × LaunchRecord) → MonitorState
  | [] => st
  | (tr, now, r) :: rest => runTrades cfg (processTradeEvent cfg st tr now r).2 rest

/-- Configuration constants of the RPC-polling monitor variant (the third
segment concatenated into src/walletManager.js). -/
structure RpcConfig where
  LAUNCH_COOLDOWN : ℤ
  MIN_BUY_AMOUNT : ℚ
deriving DecidableEq

/-- Mutable state of the RPC-polling monitor variant. -/
structure RpcState where
  processedSignatures : List String
  lastLaunchTime : ℤ
  totalLaunches : ℕ
  recentLaunches : List LaunchRecord
deriving DecidableEq

/-- Decision taken by the RPC-polling variant's `processTransaction`. -/
inductive RpcOutcome
  | DuplicateSkip
  | CooldownSkip
  | AmountUnavailable
  | BelowThreshold
  | Launched (success : Bool)
deriving DecidableEq

/-- Embedding of `processTransaction(signature)` from the RPC-polling monitor variant in
src/walletManager.js.  `buyAmount` is the result of `await
getBuyAmount(signature)` (`none` models its `null`), `launchRes` the launcher
result. -/
def processTransaction (cfg : RpcConfig) (st : RpcState) (signature : String)
    (now : ℤ) (buyAmount : Option ℚ) (launchRes : LaunchRecord) :
    RpcOutcome × RpcState :=
  if signature ∈ st.processedSignatures then (.DuplicateSkip, st)
  else
    let st1 := { st with processedSignatures := insertTrim st.processedSignatures signature }
    if now - st1.lastLaunchTime < cfg.LAUNCH_COOLDOWN then (.CooldownSkip, st1)
    else
      match buyAmount with
      | none => (.AmountUnavailable, st1)
      | some amt =>
        if amt < cfg.MIN_BUY_AMOUNT then (.BelowThreshold, st1)
        else
          let st2 := { st1 with lastLaunchTime := now }
          if launchRes.success then
            let rl0 := launchRes :: st2.recentLaunches
            let rl := if rl0.length > 100 then rl0.take 100 else rl0
            (.Launched true,
              { st2 with totalLaunches := st2.totalLaunches + 1, recentLaunches := rl })
          else (.Launched false, st2)

/-- A child wallet record as kept in the `childWallets` array of
src/walletManager.js (the signing keypair itself is opaque here; the wallet is
identified by its public key). -/
structure ChildWallet where
  publicKey : String
  launchCount : ℕ
  createdAt : ℤ
deriving DecidableEq

/-- Configuration constants of src/walletManager.js.  Amounts are in SOL. -/
structure WalletConfig where
  MAX_LAUNCHES_PER_WALLET : ℕ
  SOL_PER_WALLET : ℚ
  MIN_MASTER_BALANCE : ℚ
deriving DecidableEq

/-- Module-level mutable wallet-pool state of src/walletManager.js. -/
structure PoolState where
  childWallets : List ChildWallet
  currentWalletIndex : ℕ
deriving DecidableEq

/-- Results of the suspending external calls made during one wallet
acquisition plus one launch attempt (chain balance reads, the master→child
transfer, IPFS upload, the trade API, transaction deserialization and
submission).  Each field is what the corresponding call returns on this run. -/
structure ChainEnv where
  masterLoaded : Bool
  masterBalance : ℚ
  balanceOf : String → ℤ
  transferOk : Bool
  newWalletPk : String
  uploadOk : Bool
  tradeStatus : ℕ
  deserializeOk : Bool
  sendOk : Bool
  txSignature : String
  mintAddress : String
  tokenName : String
  tokenSymbol : String
  now : ℤ

/-- Errors thrown inside `generateNewWallet` / `getNextWallet`. -/
inductive WalletError
  | MasterNotLoaded
  | MasterTooLow
  | TransferFailed
deriving DecidableEq

/-- The `error.message` the launcher's catch block sees for each wallet-pool
error. -/
def walletErrorMessage : WalletError → String
  | .MasterNotLoaded => "Master wallet not loaded!"
  | .MasterTooLow => "Master wallet too low!"
  | .TransferFailed => "Transfer failed"

/-- Result of `generateNewWallet`: the returned wallet or thrown error, the
updated `childWallets` array, and whether an on-chain transfer was attempted. -/
structure GenResult where
  result : Except WalletError ChildWallet
  wallets : List ChildWallet
  transferAttempted : Bool

/-- Embedding of `generateNewWallet()` from src/walletManager.js: balance check first
(throwing before any transfer), then the funding transfer, then append the
fresh zero-count wallet to the pool. -/
def generateNewWallet (cfg : WalletConfig) (env : ChainEnv)
    (wallets : List ChildWallet) : GenResult :=
  if ¬ env.masterLoaded then ⟨.error .MasterNotLoaded, wallets, false⟩
  else if env.masterBalance < cfg.MIN_MASTER_BALANCE + cfg.SOL_PER_WALLET then
    ⟨.error .MasterTooLow, wallets, false⟩
  else if ¬ env.transferOk then ⟨.error .TransferFailed, wallets, true⟩
  else
    let newWallet : ChildWallet := ⟨env.newWalletPk, 0, env.now⟩
    ⟨.ok newWallet, wallets ++ [newWallet], true⟩

/-- The round-robin scan of `getNextWallet`: visit indices
`(cursor + i) % n` for `i = 0, …, n-1` and select the first wallet with
launches remaining and a live balance above `0.03 * LAMPORTS_PER_SOL`
lamports.  `fuel` is the number of candidates still to visit. -/
def scanWallets (cfg : WalletConfig) (env : ChainEnv) (wallets : List ChildWallet)
    (cursor : ℕ) : ℕ → ℕ → Option (ℕ × ChildWallet)
  | _, 0 => none
  | i, fuel + 1 =>
    let idx := (cursor + i) % wallets.length
    match wallets.get? idx with
    | none => none
    | some w =>
      if w.launchCount < cfg.MAX_LAUNCHES_PER_WALLET ∧ env.balanceOf w.publicKey > 30000000 then
        some (idx, w)
      else scanWallets cfg env wallets cursor (i + 1) fuel

/-- The full scan of the pool performed by `getNextWallet` before falling back
to `generateNewWallet`. -/
def findAvailable (cfg : WalletConfig) (env : ChainEnv) (wallets : List ChildWallet)
    (cursor : ℕ) : Option (ℕ × ChildWallet) :=
  scanWallets cfg env wallets cursor 0 wallets.length

/-- Result of `getNextWallet`: the acquired wallet or thrown error, the
updated pool, the updated rotation cursor, and whether a funding transfer was
attempted. -/
structure AcquireResult where
  result : Except WalletError ChildWallet
  wallets : List ChildWallet
  cursor : ℕ
  transferAttempted : Bool

/-- Embedding of `getNextWallet()` from src/walletManager.js: round-robin scan, and if no
pooled wallet qualifies, provision a fresh one via `generateNewWallet`. -/
def getNextWallet (cfg : WalletConfig) (env : ChainEnv) (pool : PoolState) :
    AcquireResult :=
  match findAvailable cfg env pool.childWallets pool.currentWalletIndex with
  | some (idx, w) => ⟨.ok w, pool.childWallets, idx, false⟩
  | none =>
    let g := generateNewWallet cfg env pool.childWallets
    match g.result with
    | .ok w => ⟨.ok w, g.wallets, g.wallets.length - 1, g.transferAttempted⟩
    | .error e => ⟨.error e, g.wallets, pool.currentWalletIndex, g.transferAttempted⟩

/-- Embedding of `incrementWalletLaunches(publicKey)` from src/walletManager.js: find the
first wallet with this public key and increment its counter; if none is found,
do nothing. -/
def incrementWalletLaunches (pk : String) : List ChildWallet → List ChildWallet
  | [] => []
  | w :: ws =>
    if w.publicKey = pk then { w with launchCount := w.launchCount + 1 } :: ws
    else w :: incrementWalletLaunches pk ws

/-- The launch counter the pool currently holds for a public key (the counter
of the first matching wallet, `0` if the key is not in the pool). -/
def launchCountOf (pk : String) : List ChildWallet → ℕ
  | [] => 0
  | w :: ws => if w.publicKey = pk then w.launchCount else launchCountOf pk ws

/-- Result of one `launchAnnoyingCoin` call: the returned record and the
wallet pool after the call. -/
structure LaunchOutcome where
  record : LaunchRecord
  wallets : List ChildWallet
  cursor : ℕ

/-- The record built by the catch block of `launchAnnoyingCoin`. -/
def failRecord (msg : String) (now : ℤ) : LaunchRecord :=
  { success := false, error := some msg, timestamp := now }

/-- Embedding of `launchAnnoyingCoin(triggerTx, triggerBuyAmount)` from src/launcher.js:
acquire a wallet, upload metadata, request the create transaction, sign and
submit; only after a successful submission call `incrementWalletLaunches`.
Every thrown error is caught and turned into a failure record. -/
def launchAnnoyingCoin (wcfg : WalletConfig) (env : ChainEnv) (pool : PoolState)
    (triggerTx : Option String) (triggerBuyAmount : ℚ) : LaunchOutcome :=
  let acq := getNextWallet wcfg env pool
  match acq.result with
  | .error e => ⟨failRecord (walletErrorMessage e) env.now, acq.wallets, acq.cursor⟩
  | .ok wallet =>
    if ¬ env.uploadOk then
      ⟨failRecord ("IPFS upload failed") env.now, acq.wallets, acq.cursor⟩
    else if env.tradeStatus ≠ 200 then
      ⟨failRecord ("Trade API failed") env.now, acq.wallets, acq.cursor⟩
    else if ¬ env.deserializeOk then
      ⟨failRecord ("Transaction deserialization failed") env.now, acq.wallets, acq.cursor⟩
    else if ¬ env.sendOk then
      ⟨failRecord ("Transaction send failed") env.now, acq.wallets, acq.cursor⟩
    else
      ⟨{ success := true,
         signature := some env.txSignature,
         mint := some env.mintAddress,
         name := some env.tokenName,
         symbol := some env.tokenSymbol,
         wallet := some wallet.publicKey,
         triggerTx := triggerTx,
         triggerBuyAmount := some triggerBuyAmount,
         timestamp := env.now },
       incrementWalletLaunches wallet.publicKey acq.wallets, acq.cursor⟩

/-! Concrete instances, used to exercise the definitions on explicit inputs
(threshold 15 SOL, cooldown 30000 ms; integral amounts keep every comparison
kernel-computable). -/

/-- A monitor configuration with a 15 SOL threshold and test mode off. -/
def cfgA : MonitorConfig := ⟨("CA"), 30000, 15, false, 1⟩

/-- The monitor configuration with test mode on and `MAX_TEST_LAUNCHES = 1`. -/
def cfgT : MonitorConfig := ⟨("CA"), 30000, 15, true, 1⟩

/-- The initial monitor state (fresh process, nothing persisted). -/
def stA : MonitorState := ⟨[], 0, 0, 0, [], []⟩

/-- A successful launcher result. -/
def rOk : LaunchRecord :=
  { success := true, signature := some ("launchSig"), mint := some ("mintPk"),
    name := some ("Mega Annoying Doge"), symbol := some ("ANNOY7"),
    wallet := some ("w0"), timestamp := 50000 }

/-- A failed launcher result. -/
def rFail : LaunchRecord := failRecord ("IPFS upload failed") 50000

/-- An eligible buy trade: right mint, `txType` buy, 20 SOL. -/
def trA : Trade := ⟨("CA"), ("buy"), ("tx2"), some 20, ("buyer1")⟩

/-- A second eligible buy trade with a fresh signature. -/
def trB : Trade := ⟨("CA"), ("buy"), ("tx3"), some 50, ("buyer2")⟩

/-- A buy trade on the right mint whose `solAmount` field is absent or
non-numeric. -/
def trNaN : Trade := ⟨("CA"), ("buy"), ("txNaN"), none, ("buyer3")⟩

/-- A buy trade whose `solAmount` is JSON `null`: under the JavaScript `<`
it coerces to `0`. -/
def trNull : Trade := ⟨("CA"), ("buy"), ("txNull"), some 0, ("buyerN")⟩

/-- A third eligible buy trade with a fresh signature. -/
def trC : Trade := ⟨("CA"), ("buy"), ("tx4"), some 30, ("buyer4")⟩

/-- The RPC-variant configuration matching `cfgA`. -/
def rcfgA : RpcConfig := ⟨30000, 15⟩

/-- The RPC-variant initial state. -/
def rstA : RpcState := ⟨[], 0, 0, []⟩

/-- A wallet-pool configuration: 10 launches per wallet, 1 SOL per wallet,
2 SOL master reserve. -/
def wcfgA : WalletConfig := ⟨10, 1, 2⟩

/-- A pooled wallet with three launches recorded. -/
def wA : ChildWallet := ⟨("w0"), 3, 100⟩

/-- A pool holding just `wA`. -/
def poolA : PoolState := ⟨[wA], 0⟩

/-- An empty pool (no pooled wallet can qualify). -/
def poolEmpty : PoolState := ⟨[], 0⟩

/-- An environment where every external call succeeds. -/
def envOk : ChainEnv :=
  { masterLoaded := true, masterBalance := 5, balanceOf := fun _ => 1000000000,
    transferOk := true, newWalletPk := ("wNew"), uploadOk := true,
    tradeStatus := 200, deserializeOk := true, sendOk := true,
    txSignature := ("sig1"), mintAddress := ("mint1"),
    tokenName := ("Mega Annoying Doge"), tokenSymbol := ("ANNOY7"), now := 777 }

/-- An environment where the IPFS metadata upload fails. -/
def envUploadFail : ChainEnv := { envOk with uploadOk := false }

/-- An environment where the master balance (2 SOL) is below
`MIN_MASTER_BALANCE + SOL_PER_WALLET` (3 SOL). -/
def envLowMaster : ChainEnv := { envOk with masterBalance := 2 }

/-- Three qualifying buys spaced far apart, all with the launcher
succeeding. -/
def evsT : List (Trade × ℤ × LaunchRecord) :=
  [(trA, 50000, rOk), (trB, 100000, rOk), (trC, 200000, rOk)]

/-! Helper lemmas about the dedupe window. -/

lemma mem_drop_append {α : Type} (a : α) :
    ∀ (l : List α) (k : ℕ), k ≤ l.length → a ∈ (l ++ [a]).drop k
  | _, 0, _ => by simp
  | [], k + 1, h => absurd h (by simp)
  | _ :: l, k + 1, h => by
    rw [List.cons_append, List.drop_succ_cons]
    exact mem_drop_append a l k (Nat.le_of_succ_le_succ h)

lemma mem_insertTrim (l : List String) (sig : String) : sig ∈ insertTrim l sig := by
  simp only [insertTrim]
  split
  · exact mem_drop_append sig l _ (by simp only [List.length_append, List.length_singleton]; omega)
  · simp

lemma length_insertTrim_le (l : List String) (sig : String)
    (h : l.length ≤ 1000) : (insertTrim l sig).length ≤ 1000 := by
  simp only [insertTrim]
  split
  · simp only [List.length_drop]
    omega
  · simp only [List.length_append, List.length_singleton] at *
    omega

lemma insertTrim_at_capacity (l : List String) (sig : String)
    (h : l.length = 1000) :
    insertTrim l sig = (l ++ [sig]).drop 501 ∧ (insertTrim l sig).length = 500 := by
  simp only [insertTrim]
  rw [if_pos (by simp [h])]
  refine ⟨by simp [h], ?_⟩
  simp [List.length_drop, h]

/-! Projection lemmas unfolding one `processTradeEvent` step. -/

lemma processTradeEvent_duplicate (cfg : MonitorConfig) (st : MonitorState)
    (tr : Trade) (now : ℤ) (r : LaunchRecord)
    (hm : tr.mint = cfg.targetCA) (hb : tr.txType = ("buy"))
    (hdup : tr.signature ∈ st.processedTxs) :
    processTradeEvent cfg st tr now r = (.DuplicateSkip, st) := by
  simp [processTradeEvent, hm, hb, hdup]

lemma processTradeEvent_processedTxs (cfg : MonitorConfig) (st : MonitorState)
    (tr : Trade) (now : ℤ) (r : LaunchRecord)
    (hm : tr.mint = cfg.targetCA) (hb : tr.txType = ("buy"))
    (hf : tr.signature ∉ st.processedTxs) :
    (processTradeEvent cfg st tr now r).2.processedTxs
      = insertTrim st.processedTxs tr.signature := by
  cases hs : tr.solAmount with
  | none => simp [processTradeEvent, jsLtOpt, hm, hb, hf, hs]
  | some a =>
    simp [processTradeEvent, hm, hb, hf, hs]
    split_ifs <;> rfl

lemma processTradeEvent_processedTxs_cases (cfg : MonitorConfig) (st : MonitorState)
    (tr : Trade) (now : ℤ) (r : LaunchRecord) :
    (processTradeEvent cfg st tr now r).2.processedTxs = st.processedTxs ∨
    (processTradeEvent cfg st tr now r).2.processedTxs
      = insertTrim st.processedTxs tr.signature := by
  cases hs : tr.solAmount with
  | none =>
    simp only [processTradeEvent, hs]
    split_ifs <;> simp [jsLtOpt]
  | some a =>
    simp only [processTradeEvent, hs]
    split_ifs <;> simp

lemma processTradeEvent_below (cfg : MonitorConfig) (st : MonitorState)
    (tr : Trade) (now : ℤ) (r : LaunchRecord)
    (hm : tr.mint = cfg.targetCA) (hb : tr.txType = ("buy"))
    (hf : tr.signature ∉ st.processedTxs)
    (hlt : jsLtOpt tr.solAmount cfg.MIN_BUY_AMOUNT = true) :
    processTradeEvent cfg st tr now r
      = (.BelowThreshold, { st with processedTxs := insertTrim st.processedTxs tr.signature }) := by
  simp [processTradeEvent, hm, hb, hf, hlt]

lemma processTradeEvent_typeerror (cfg : MonitorConfig) (st : MonitorState)
    (tr : Trade) (now : ℤ) (r : LaunchRecord)
    (hm : tr.mint = cfg.targetCA) (hb : tr.txType = ("buy"))
    (hf : tr.signature ∉ st.processedTxs)
    (hnone : tr.solAmount = none) :
    processTradeEvent cfg st tr now r
      = (.TypeErrorCrash, { st with processedTxs := insertTrim st.processedTxs tr.signature }) := by
  simp [processTradeEvent, jsLtOpt, hm, hb, hf, hnone]

lemma processTradeEvent_testskip (cfg : MonitorConfig) (st : MonitorState)
    (tr : Trade) (now : ℤ) (r : LaunchRecord)
    (hm : tr.mint = cfg.targetCA) (hb : tr.txType = ("buy"))
    (hf : tr.signature ∉ st.processedTxs)
    (a : ℚ) (ha : tr.solAmount = some a) (hge : cfg.MIN_BUY_AMOUNT ≤ a)
    (htest : cfg.TEST_MODE = true)
    (hsess : st.sessionLaunches ≥ cfg.MAX_TEST_LAUNCHES) :
    processTradeEvent cfg st tr now r
      = (.TestModeSkip, { st with processedTxs := insertTrim st.processedTxs tr.signature }) := by
  simp [processTradeEvent, jsLtOpt, hm, hb, hf, ha, not_lt.mpr hge, htest, hsess]

lemma processTradeEvent_cooldownskip (cfg : MonitorConfig) (st : MonitorState)
    (tr : Trade) (now : ℤ) (r : LaunchRecord)
    (hm : tr.mint = cfg.targetCA) (hb : tr.txType = ("buy"))
    (hf : tr.signature ∉ st.processedTxs)
    (a : ℚ) (ha : tr.solAmount = some a) (hge : cfg.MIN_BUY_AMOUNT ≤ a)
    (htest : ¬(cfg.TEST_MODE ∧ st.sessionLaunches ≥ cfg.MAX_TEST_LAUNCHES))
    (hcd : now - st.lastLaunchTime < cfg.LAUNCH_COOLDOWN) :
    processTradeEvent cfg st tr now r
      = (.CooldownSkip, { st with processedTxs := insertTrim st.processedTxs tr.signature }) := by
  simp [processTradeEvent, jsLtOpt, hm, hb, hf, ha, not_lt.mpr hge, hcd, htest]

lemma processTradeEvent_launch_fail (cfg : MonitorConfig) (st : MonitorState)
    (tr : Trade) (now : ℤ) (r : LaunchRecord)
    (hm : tr.mint = cfg.targetCA) (hb : tr.txType = ("buy"))
    (hf : tr.signature ∉ st.processedTxs)
    (a : ℚ) (ha : tr.solAmount = some a) (hge : cfg.MIN_BUY_AMOUNT ≤ a)
    (htest : ¬(cfg.TEST_MODE ∧ st.sessionLaunches ≥ cfg.MAX_TEST_LAUNCHES))
    (hcd : cfg.LAUNCH_COOLDOWN ≤ now - st.lastLaunchTime)
    (hr : r.success = false) :
    processTradeEvent cfg st tr now r
      = (.Launched false,
         { st with processedTxs := insertTrim st.processedTxs tr.signature,
                   lastLaunchTime := now }) := by
  simp [processTradeEvent, jsLtOpt, hm, hb, hf, ha, not_lt.mpr hge, htest, hr, not_lt.mpr hcd]

lemma processTradeEvent_launch_ok (cfg : MonitorConfig) (st : MonitorState)
    (tr : Trade) (now : ℤ) (r : LaunchRecord)
    (hm : tr.mint = cfg.targetCA) (hb : tr.txType = ("buy"))
    (hf : tr.signature ∉ st.processedTxs)
    (a : ℚ) (ha : tr.solAmount = some a) (hge : cfg.MIN_BUY_AMOUNT ≤ a)
    (htest : ¬(cfg.TEST_MODE ∧ st.sessionLaunches ≥ cfg.MAX_TEST_LAUNCHES))
    (hcd : cfg.LAUNCH_COOLDOWN ≤ now - st.lastLaunchTime)
    (hr : r.success = true) :
    (processTradeEvent cfg st tr now r).1 = .Launched true ∧
    (processTradeEvent cfg st tr now r).2.lastLaunchTime = now ∧
    (processTradeEvent cfg st tr now r).2.sessionLaunches = st.sessionLaunches + 1 := by
  simp [processTradeEvent, jsLtOpt, hm, hb, hf, ha, not_lt.mpr hge, htest, hr, not_lt.mpr hcd]

lemma launch_implies_cooldown_clear (cfg : MonitorConfig) (st : MonitorState)
    (tr : Trade) (now : ℤ) (r : LaunchRecord)
    (h : isLaunch (processTradeEvent cfg st tr now r).1 = true) :
    cfg.LAUNCH_COOLDOWN ≤ now - st.lastLaunchTime ∧
    (processTradeEvent cfg st tr now r).2.lastLaunchTime = now := by
  revert h
  cases hs : tr.solAmount with
  | none =>
    simp only [processTradeEvent, hs]
    split_ifs <;> simp [isLaunch]
  | some a =>
    simp only [processTradeEvent, hs]
    split_ifs <;> simp [isLaunch] <;> omega

lemma processTradeEvent_sessionLaunches_le (cfg : MonitorConfig) (st : MonitorState)
    (tr : Trade) (now : ℤ) (r : LaunchRecord)
    (htm : cfg.TEST_MODE = true) (h : st.sessionLaunches ≤ cfg.MAX_TEST_LAUNCHES) :
    (processTradeEvent cfg st tr now r).2.sessionLaunches ≤ cfg.MAX_TEST_LAUNCHES := by
  cases hs : tr.solAmount with
  | none =>
    simp only [processTradeEvent, hs]
    split_ifs <;> simp_all
  | some a =>
    simp only [processTradeEvent, hs]
    split_ifs <;> simp_all <;> omega

/-! Claim theorems about the WebSocket trigger filter (src/monitor.js). -/

/-- Claim C1: a transaction identifier delivered twice to the trigger filter
yields exactly one launch invocation.  The identifier is inserted into the
dedupe window on first sight — before the threshold, test-mode and cooldown
checks, whatever their results — and a later event carrying the same
identifier is answered with `DuplicateSkip`, leaving the state untouched.  If
the first delivery is fully eligible (a numeric amount at or above the
threshold, test-mode gate open, cooldown clear) it is the one launch. -/
theorem dedup_exactly_one_launch
    (cfg : MonitorConfig) (st : MonitorState) (tr tr2 : Trade)
    (now now2 : ℤ) (r r2 : LaunchRecord)
    (hm : tr.mint = cfg.targetCA) (hb : tr.txType = ("buy"))
    (hf : tr.signature ∉ st.processedTxs)
    (hm2 : tr2.mint = cfg.targetCA) (hb2 : tr2.txType = ("buy"))
    (hsig : tr2.signature = tr.signature) :
    tr.signature ∈ (processTradeEvent cfg st tr now r).2.processedTxs ∧
    processTradeEvent cfg (processTradeEvent cfg st tr now r).2 tr2 now2 r2
      = (.DuplicateSkip, (processTradeEvent cfg st tr now r).2) ∧
    (∀ a : ℚ, tr.solAmount = some a → cfg.MIN_BUY_AMOUNT ≤ a →
      ¬(cfg.TEST_MODE ∧ st.sessionLaunches ≥ cfg.MAX_TEST_LAUNCHES) →
      cfg.LAUNCH_COOLDOWN ≤ now - st.lastLaunchTime →
      isLaunch (processTradeEvent cfg st tr now r).1 = true) ∧
    isLaunch (processTradeEvent cfg (processTradeEvent cfg st tr now r).2 tr2 now2 r2).1 = false := by
  have hmem : tr.signature ∈ (processTradeEvent cfg st tr now r).2.processedTxs := by
    rw [processTradeEvent_processedTxs cfg st tr now r hm hb hf]
    exact mem_insertTrim _ _
  have hdup : processTradeEvent cfg (processTradeEvent cfg st tr now r).2 tr2 now2 r2
      = (.DuplicateSkip, (processTradeEvent cfg st tr now r).2) :=
    processTradeEvent_duplicate _ _ _ _ _ hm2 hb2 (by rw [hsig]; exact hmem)
  refine ⟨hmem, hdup, ?_, by rw [hdup]; rfl⟩
  intro a ha hge htest hcd
  cases hr : r.success with
  | false => rw [processTradeEvent_launch_fail cfg st tr now r hm hb hf a ha hge htest hcd hr]; rfl
  | true => rw [(processTradeEvent_launch_ok cfg st tr now r hm hb hf a ha hge htest hcd hr).1]; rfl

/-- Witness for C1: the same 20 SOL buy delivered twice from a fresh state;
the first delivery launches, the second is deduplicated. -/
theorem dedup_exactly_one_launch_witness :
    trA.signature ∈ (processTradeEvent cfgA stA trA 50000 rOk).2.processedTxs ∧
    processTradeEvent cfgA (processTradeEvent cfgA stA trA 50000 rOk).2 trA 50001 rOk
      = (.DuplicateSkip, (processTradeEvent cfgA stA trA 50000 rOk).2) ∧
    (∀ a : ℚ, trA.solAmount = some a → cfgA.MIN_BUY_AMOUNT ≤ a →
      ¬(cfgA.TEST_MODE ∧ stA.sessionLaunches ≥ cfgA.MAX_TEST_LAUNCHES) →
      cfgA.LAUNCH_COOLDOWN ≤ 50000 - stA.lastLaunchTime →
      isLaunch (processTradeEvent cfgA stA trA 50000 rOk).1 = true) ∧
    isLaunch (processTradeEvent cfgA (processTradeEvent cfgA stA trA 50000 rOk).2 trA 50001 rOk).1 = false :=
  dedup_exactly_one_launch cfgA stA trA trA 50000 50001 rOk rOk rfl rfl (by decide) rfl rfl rfl

/-- Claim C2: the cooldown timestamp is set at approval time, before the
launch call (so it is `now` even when the launch fails); an otherwise-eligible
event (fresh signature, numeric amount at or above the threshold) one
millisecond before the window closes is skipped, one millisecond after it
re-launches; and no event whatsoever whose time is less than the cooldown
after an approval can launch. -/
theorem cooldown_closes_on_approval
    (cfg : MonitorConfig) (st : MonitorState) (tr : Trade) (now : ℤ) (r : LaunchRecord)
    (htm : cfg.TEST_MODE = false)
    (hm : tr.mint = cfg.targetCA) (hb : tr.txType = ("buy"))
    (hf : tr.signature ∉ st.processedTxs)
    (a : ℚ) (ha : tr.solAmount = some a) (hge : cfg.MIN_BUY_AMOUNT ≤ a)
    (hcd : cfg.LAUNCH_COOLDOWN ≤ now - st.lastLaunchTime) :
    isLaunch (processTradeEvent cfg st tr now r).1 = true ∧
    (processTradeEvent cfg st tr now r).2.lastLaunchTime = now ∧
    (∀ tr2 r2 (a2 : ℚ), tr2.mint = cfg.targetCA → tr2.txType = ("buy") →
      tr2.signature ∉ (processTradeEvent cfg st tr now r).2.processedTxs →
      tr2.solAmount = some a2 → cfg.MIN_BUY_AMOUNT ≤ a2 →
      (processTradeEvent cfg (processTradeEvent cfg st tr now r).2 tr2
        (now + cfg.LAUNCH_COOLDOWN - 1) r2).1 = .CooldownSkip) ∧
    (∀ tr2 r2 (a2 : ℚ), tr2.mint = cfg.targetCA → tr2.txType = ("buy") →
      tr2.signature ∉ (processTradeEvent cfg st tr now r).2.processedTxs →
      tr2.solAmount = some a2 → cfg.MIN_BUY_AMOUNT ≤ a2 →
      isLaunch (processTradeEvent cfg (processTradeEvent cfg st tr now r).2 tr2
        (now + cfg.LAUNCH_COOLDOWN + 1) r2).1 = true) ∧
    (∀ tr2 now2 r2, now2 - now < cfg.LAUNCH_COOLDOWN →
      isLaunch (processTradeEvent cfg (processTradeEvent cfg st tr now r).2 tr2 now2 r2).1 = false) := by
  have htest : ∀ s : MonitorState, ¬(cfg.TEST_MODE ∧ s.sessionLaunches ≥ cfg.MAX_TEST_LAUNCHES) := by
    simp [htm]
  have hpair : (processTradeEvent cfg st tr now r).1 = Outcome.Launched r.success ∧
      (processTradeEvent cfg st tr now r).2.lastLaunchTime = now := by
    cases hr : r.success with
    | false =>
      rw [processTradeEvent_launch_fail cfg st tr now r hm hb hf a ha hge (htest st) hcd hr]
      exact ⟨rfl, rfl⟩
    | true =>
      have h := processTradeEvent_launch_ok cfg st tr now r hm hb hf a ha hge (htest st) hcd hr
      exact ⟨by rw [h.1], h.2.1⟩
  refine ⟨by rw [hpair.1]; rfl, hpair.2, ?_, ?_, ?_⟩
  · intro tr2 r2 a2 hm2 hb2 hf2 ha2 hge2
    rw [processTradeEvent_cooldownskip cfg _ tr2 _ r2 hm2 hb2 hf2 a2 ha2 hge2 (htest _)
      (by rw [hpair.2]; omega)]
  · intro tr2 r2 a2 hm2 hb2 hf2 ha2 hge2
    have hcd2 : cfg.LAUNCH_COOLDOWN ≤ (now + cfg.LAUNCH_COOLDOWN + 1) -
        (processTradeEvent cfg st tr now r).2.lastLaunchTime := by
      rw [hpair.2]; omega
    cases hr2 : r2.success with
    | false =>
      rw [processTradeEvent_launch_fail cfg _ tr2 _ r2 hm2 hb2 hf2 a2 ha2 hge2 (htest _) hcd2 hr2]; rfl
    | true =>
      rw [(processTradeEvent_launch_ok cfg _ tr2 _ r2 hm2 hb2 hf2 a2 ha2 hge2 (htest _) hcd2 hr2).1]; rfl
  · intro tr2 now2 r2 hwin
    cases hL : isLaunch (processTradeEvent cfg (processTradeEvent cfg st tr now r).2 tr2 now2 r2).1 with
    | false => rfl
    | true =>
      exfalso
      have hcc := launch_implies_cooldown_clear cfg _ tr2 now2 r2 hL
      rw [hpair.2] at hcc
      omega

/-- Witness for C2: a 20 SOL buy approved at t = 50000 with a 30000 ms
cooldown; the conclusion covers skips at 79999, launches at 80001, and no
launch before 80000. -/
theorem cooldown_closes_on_approval_witness :
    isLaunch (processTradeEvent cfgA stA trA 50000 rOk).1 = true ∧
    (processTradeEvent cfgA stA trA 50000 rOk).2.lastLaunchTime = 50000 ∧
    (∀ tr2 r2 (a2 : ℚ), tr2.mint = cfgA.targetCA → tr2.txType = ("buy") →
      tr2.signature ∉ (processTradeEvent cfgA stA trA 50000 rOk).2.processedTxs →
      tr2.solAmount = some a2 → cfgA.MIN_BUY_AMOUNT ≤ a2 →
      (processTradeEvent cfgA (processTradeEvent cfgA stA trA 50000 rOk).2 tr2
        (50000 + cfgA.LAUNCH_COOLDOWN - 1) r2).1 = .CooldownSkip) ∧
    (∀ tr2 r2 (a2 : ℚ), tr2.mint = cfgA.targetCA → tr2.txType = ("buy") →
      tr2.signature ∉ (processTradeEvent cfgA stA trA 50000 rOk).2.processedTxs →
      tr2.solAmount = some a2 → cfgA.MIN_BUY_AMOUNT ≤ a2 →
      isLaunch (processTradeEvent cfgA (processTradeEvent cfgA stA trA 50000 rOk).2 tr2
        (50000 + cfgA.LAUNCH_COOLDOWN + 1) r2).1 = true) ∧
    (∀ tr2 now2 r2, now2 - 50000 < cfgA.LAUNCH_COOLDOWN →
      isLaunch (processTradeEvent cfgA (processTradeEvent cfgA stA trA 50000 rOk).2 tr2 now2 r2).1 = false) :=
  cooldown_closes_on_approval cfgA stA trA 50000 rOk rfl rfl rfl (by decide) 20 rfl
    (by decide) (by decide)

/-- Claim C4 (failing input): a buy on the watched mint whose `solAmount` is
absent or non-numeric passes `buyAmountSol < MIN_BUY_AMOUNT` — the JavaScript
comparison is `false` — and then `buyAmountSol.toFixed(4)` at monitor.js line
82 throws a `TypeError`: the handler aborts with an unhandled rejection
before the test-mode and cooldown checks.  No launch occurs and the cooldown
timestamp is untouched, but the event is *not* treated as `BelowThreshold` as
the claim requires.  By contrast a JSON `null` amount coerces to `0` and is
genuinely below threshold, and the RPC-polling variant fails closed on an
unavailable amount. -/
theorem missing_amount_crashes :
    (processTradeEvent cfgA stA trNaN 50000 rOk).1 = .TypeErrorCrash ∧
    isLaunch (processTradeEvent cfgA stA trNaN 50000 rOk).1 = false ∧
    (processTradeEvent cfgA stA trNaN 50000 rOk).2.lastLaunchTime = stA.lastLaunchTime ∧
    (processTradeEvent cfgA stA trNull 50000 rOk).1 = .BelowThreshold ∧
    (processTransaction rcfgA rstA ("sigNaN") 50000 none rOk).1 = .AmountUnavailable ∧
    (processTransaction rcfgA rstA ("sigNaN") 50000 none rOk).2.lastLaunchTime
      = rstA.lastLaunchTime := by
  decide

/-- Claim C7: the minimum-buy threshold is an inclusive boundary — for a
non-duplicate buy on the watched mint with the cooldown clear and the
test-mode gate open, an amount strictly below `MIN_BUY_AMOUNT` stops at
`BelowThreshold`, while an amount exactly equal to it proceeds to the launch
call. -/
theorem threshold_inclusive
    (cfg : MonitorConfig) (st : MonitorState) (tr : Trade) (now : ℤ) (r : LaunchRecord)
    (hm : tr.mint = cfg.targetCA) (hb : tr.txType = ("buy"))
    (hf : tr.signature ∉ st.processedTxs) (a : ℚ) (ha : tr.solAmount = some a)
    (htest : ¬(cfg.TEST_MODE ∧ st.sessionLaunches ≥ cfg.MAX_TEST_LAUNCHES))
    (hcd : cfg.LAUNCH_COOLDOWN ≤ now - st.lastLaunchTime) :
    (a < cfg.MIN_BUY_AMOUNT → (processTradeEvent cfg st tr now r).1 = .BelowThreshold) ∧
    (a = cfg.MIN_BUY_AMOUNT → (processTradeEvent cfg st tr now r).1 = .Launched r.success) := by
  constructor
  · intro hlow
    rw [processTradeEvent_below cfg st tr now r hm hb hf (by simp [jsLtOpt, ha, hlow])]

  · intro heq
    have hge : cfg.MIN_BUY_AMOUNT ≤ a := le_of_eq heq.symm
    cases hr : r.success with
    | false => rw [processTradeEvent_launch_fail cfg st tr now r hm hb hf a ha hge htest hcd hr]
    | true => rw [(processTradeEvent_launch_ok cfg st tr now r hm hb hf a ha hge htest hcd hr).1]

/-- Witness for C7: with a 15 SOL threshold, a buy of exactly 15 SOL launches
(equality passes) and the strict-below implication is available at the same
input. -/
theorem threshold_inclusive_witness :
    ((15 : ℚ) < cfgA.MIN_BUY_AMOUNT →
      (processTradeEvent cfgA stA ⟨("CA"), ("buy"), ("txEq"), some 15, ("b")⟩ 50000 rOk).1
        = .BelowThreshold) ∧
    ((15 : ℚ) = cfgA.MIN_BUY_AMOUNT →
      (processTradeEvent cfgA stA ⟨("CA"), ("buy"), ("txEq"), some 15, ("b")⟩ 50000 rOk).1
        = .Launched rOk.success) :=
  threshold_inclusive cfgA stA ⟨("CA"), ("buy"), ("txEq"), some 15, ("b")⟩ 50000 rOk
    rfl rfl (by decide) 15 rfl (by decide) (by decide)

/-- Claim C9: the dedupe window stays within the 1000-entry high-water mark
after every event; a fresh identifier is always present afterwards; and when
the insert overflows the mark (window previously at exactly 1000), the trim
keeps precisely the 500 most recently inserted identifiers — the tail of the
insertion-ordered list — so the identifier just inserted survives. -/
theorem dedupe_window_bounded
    (cfg : MonitorConfig) (st : MonitorState) (tr : Trade) (now : ℤ) (r : LaunchRecord)
    (hlen : st.processedTxs.length ≤ 1000) :
    (processTradeEvent cfg st tr now r).2.processedTxs.length ≤ 1000 ∧
    (tr.mint = cfg.targetCA → tr.txType = ("buy") → tr.signature ∉ st.processedTxs →
      tr.signature ∈ (processTradeEvent cfg st tr now r).2.processedTxs ∧
      (st.processedTxs.length = 1000 →
        (processTradeEvent cfg st tr now r).2.processedTxs
          = (st.processedTxs ++ [tr.signature]).drop 501 ∧
        (processTradeEvent cfg st tr now r).2.processedTxs.length = 500)) := by
  constructor
  · rcases processTradeEvent_processedTxs_cases cfg st tr now r with h | h
    · rw [h]; exact hlen
    · rw [h]; exact length_insertTrim_le _ _ hlen
  · intro hm hb hf
    have htxs := processTradeEvent_processedTxs cfg st tr now r hm hb hf
    refine ⟨by rw [htxs]; exact mem_insertTrim _ _, ?_⟩
    intro hcap
    rw [htxs]
    exact insertTrim_at_capacity st.processedTxs tr.signature hcap

/-- Witness for C9 on a fresh state: the bound holds and the inserted
identifier is present. -/
theorem dedupe_window_bounded_witness :
    (processTradeEvent cfgA stA trA 50000 rOk).2.processedTxs.length ≤ 1000 ∧
    (trA.mint = cfgA.targetCA → trA.txType = ("buy") → trA.signature ∉ stA.processedTxs →
      trA.signature ∈ (processTradeEvent cfgA stA trA 50000 rOk).2.processedTxs ∧
      (stA.processedTxs.length = 1000 →
        (processTradeEvent cfgA stA trA 50000 rOk).2.processedTxs
          = (stA.processedTxs ++ [trA.signature]).drop 501 ∧
        (processTradeEvent cfgA stA trA 50000 rOk).2.processedTxs.length = 500)) :=
  dedupe_window_bounded cfgA stA trA 50000 rOk (by decide)

/-- Claim C10: with test mode on, `sessionLaunches ≤ MAX_TEST_LAUNCHES` is an
invariant of processing any event sequence, and once the cap is reached an
otherwise-qualifying buy (numeric amount at or above the threshold) is
answered `TestModeSkip` — for every `now`, i.e. before the cooldown check is
even consulted — launching nothing and leaving the counters and cooldown
timestamp unchanged. -/
theorem test_mode_caps_session_launches
    (cfg : MonitorConfig) (htm : cfg.TEST_MODE = true) (st : MonitorState)
    (hst : st.sessionLaunches ≤ cfg.MAX_TEST_LAUNCHES)
    (evs : List (Trade × ℤ × LaunchRecord)) :
    (runTrades cfg st evs).sessionLaunches ≤ cfg.MAX_TEST_LAUNCHES ∧
    (∀ tr now r (a : ℚ), st.sessionLaunches ≥ cfg.MAX_TEST_LAUNCHES →
      tr.mint = cfg.targetCA → tr.txType = ("buy") → tr.signature ∉ st.processedTxs →
      tr.solAmount = some a → cfg.MIN_BUY_AMOUNT ≤ a →
      (processTradeEvent cfg st tr now r).1 = .TestModeSkip ∧
      (processTradeEvent cfg st tr now r).2.sessionLaunches = st.sessionLaunches ∧
      (processTradeEvent cfg st tr now r).2.lastLaunchTime = st.lastLaunchTime) := by
  constructor
  · induction evs generalizing st with
    | nil => simpa [runTrades] using hst
    | cons ev rest ih =>
      obtain ⟨tr, now, r⟩ := ev
      exact ih _ (processTradeEvent_sessionLaunches_le cfg st tr now r htm hst)
  · intro tr now r a hcap hm hb hf ha hge
    rw [processTradeEvent_testskip cfg st tr now r hm hb hf a ha hge htm hcap]
    exact ⟨rfl, rfl, rfl⟩

/-- Witness for C10: three qualifying buys under `MAX_TEST_LAUNCHES = 1`; the
session counter ends at exactly 1. -/
theorem test_mode_caps_session_launches_witness :
    (runTrades cfgT stA evsT).sessionLaunches ≤ cfgT.MAX_TEST_LAUNCHES ∧
    (runTrades cfgT stA evsT).sessionLaunches = 1 :=
  ⟨(test_mode_caps_session_launches cfgT rfl stA (by decide) evsT).1, by decide⟩

/-- Claim C3 (counterexample): a failed launch attempt — the launcher returns
`success = false` — leaves both the in-memory recent-launch list and the
persisted launch history empty: the failure record is not appended anywhere,
contradicting the claim that failed attempts appear in the launch history. -/
theorem monitor_discards_failed_record :
    (processTradeEvent cfgA stA trA 50000 rFail).1 = .Launched false ∧
    (processTradeEvent cfgA stA trA 50000 rFail).2.recentLaunches = [] ∧
    (processTradeEvent cfgA stA trA 50000 rFail).2.fbLaunches = [] := by
  decide

/-! Helper lemmas about the wallet pool and the launcher. -/

lemma scanWallets_mem (cfg : WalletConfig) (env : ChainEnv)
    (wallets : List ChildWallet) (cursor : ℕ) :
    ∀ (fuel i idx : ℕ) (w : ChildWallet),
      scanWallets cfg env wallets cursor i fuel = some (idx, w) → w ∈ wallets := by
  intro fuel
  induction fuel with
  | zero => intro i idx w h; simp [scanWallets] at h
  | succ n ih =>
    intro i idx w h
    simp only [scanWallets] at h
    split at h
    · simp at h
    · rename_i w0 heq
      split_ifs at h with hc
      · cases h
        exact List.get?_mem heq
      · exact ih (i + 1) idx w h

lemma findAvailable_mem (cfg : WalletConfig) (env : ChainEnv)
    (wallets : List ChildWallet) (cursor idx : ℕ) (w : ChildWallet)
    (h : findAvailable cfg env wallets cursor = some (idx, w)) : w ∈ wallets :=
  scanWallets_mem cfg env wallets cursor _ _ idx w h

lemma generateNewWallet_ok (cfg : WalletConfig) (env : ChainEnv)
    (wallets : List ChildWallet) (w : ChildWallet)
    (h : (generateNewWallet cfg env wallets).result = .ok w) :
    w = ⟨env.newWalletPk, 0, env.now⟩ ∧
    (generateNewWallet cfg env wallets).wallets = wallets ++ [w] := by
  revert h
  simp only [generateNewWallet]
  split_ifs <;> intro h <;> simp_all

lemma generateNewWallet_error_wallets (cfg : WalletConfig) (env : ChainEnv)
    (wallets : List ChildWallet) (e : WalletError)
    (h : (generateNewWallet cfg env wallets).result = .error e) :
    (generateNewWallet cfg env wallets).wallets = wallets := by
  revert h
  simp only [generateNewWallet]
  split_ifs <;> intro h <;> simp_all

lemma launchCountOf_append_zero (pk pk0 : String) (t : ℤ) (ws : List ChildWallet) :
    launchCountOf pk (ws ++ [⟨pk0, 0, t⟩]) = launchCountOf pk ws := by
  induction ws with
  | nil =>
    simp only [List.nil_append, launchCountOf]
    split_ifs <;> rfl
  | cons w ws ih =>
    simp only [List.cons_append, launchCountOf]
    split_ifs <;> simp [ih]

lemma getNextWallet_counts (cfg : WalletConfig) (env : ChainEnv) (pool : PoolState)
    (pk : String) :
    launchCountOf pk (getNextWallet cfg env pool).wallets
      = launchCountOf pk pool.childWallets := by
  simp only [getNextWallet]
  cases hf : findAvailable cfg env pool.childWallets pool.currentWalletIndex with
  | some p => obtain ⟨idx, w0⟩ := p; rfl
  | none =>
    cases hg : (generateNewWallet cfg env pool.childWallets).result with
    | ok w =>
      obtain ⟨hw, hws⟩ := generateNewWallet_ok cfg env pool.childWallets w hg
      dsimp only
      rw [hws, hw]
      exact launchCountOf_append_zero pk env.newWalletPk env.now pool.childWallets
    | error e =>
      dsimp only
      rw [generateNewWallet_error_wallets cfg env pool.childWallets e hg]

lemma getNextWallet_ok_mem (cfg : WalletConfig) (env : ChainEnv) (pool : PoolState)
    (w : ChildWallet) (h : (getNextWallet cfg env pool).result = .ok w) :
    w ∈ (getNextWallet cfg env pool).wallets := by
  revert h
  simp only [getNextWallet]
  cases hf : findAvailable cfg env pool.childWallets pool.currentWalletIndex with
  | some p =>
    obtain ⟨idx, w1⟩ := p
    dsimp only
    intro h
    injection h with h2
    subst h2
    exact findAvailable_mem cfg env pool.childWallets pool.currentWalletIndex idx w1 hf
  | none =>
    cases hg : (generateNewWallet cfg env pool.childWallets).result with
    | ok w1 =>
      dsimp only
      intro h
      injection h with h2
      subst h2
      obtain ⟨hw, hws⟩ := generateNewWallet_ok cfg env pool.childWallets w1 hg
      rw [hws]
      exact List.mem_append_right _ (List.mem_singleton_self w1)
    | error e =>
      dsimp only
      intro h
      cases h

lemma launchCountOf_increment (pk : String) (ws : List ChildWallet)
    (h : ∃ w ∈ ws, w.publicKey = pk) :
    launchCountOf pk (incrementWalletLaunches pk ws) = launchCountOf pk ws + 1 := by
  induction ws with
  | nil => simp at h
  | cons w ws ih =>
    by_cases hw : w.publicKey = pk
    · simp [incrementWalletLaunches, launchCountOf, hw]
    · have h' : ∃ w' ∈ ws, w'.publicKey = pk := by
        rcases h with ⟨w', hw', hpk⟩
        rcases List.mem_cons.mp hw' with rfl | hmem
        · exact absurd hpk hw
        · exact ⟨w', hmem, hpk⟩
      simp [incrementWalletLaunches, launchCountOf, hw, ih h']

lemma processTradeEvent_fail_keeps_history (cfg : MonitorConfig) (st : MonitorState)
    (tr : Trade) (now : ℤ) (r : LaunchRecord) (hr : r.success = false) :
    (processTradeEvent cfg st tr now r).2.recentLaunches = st.recentLaunches ∧
    (processTradeEvent cfg st tr now r).2.fbLaunches = st.fbLaunches := by
  cases hs : tr.solAmount with
  | none =>
    simp only [processTradeEvent, hs]
    split_ifs <;> simp_all
  | some a =>
    simp only [processTradeEvent, hs]
    split_ifs <;> simp_all

lemma launch_fail_has_error (wcfg : WalletConfig) (env : ChainEnv) (pool : PoolState)
    (ttx : Option String) (amt : ℚ)
    (h : (launchAnnoyingCoin wcfg env pool ttx amt).record.success = false) :
    (launchAnnoyingCoin wcfg env pool ttx amt).record.error ≠ none := by
  revert h
  simp only [launchAnnoyingCoin]
  cases (getNextWallet wcfg env pool).result with
  | error e => intro h; simp [failRecord]
  | ok w =>
    intro h
    split_ifs at h ⊢ <;> simp_all [failRecord]

/-! Claim theorems about the launcher and the wallet pool. -/

/-- Claim C3 (amended): the launcher produces a record for every attempt —
with `success = false` and an error message on failure — but only successful
records are appended to the launch history: a failed attempt leaves both the
in-memory `recentLaunches` and the persisted launch store unchanged, so
failures never appear in the user-visible launch history. -/
theorem only_success_recorded
    (cfg : MonitorConfig) (st : MonitorState) (tr : Trade) (now : ℤ) (r : LaunchRecord)
    (hr : r.success = false)
    (wcfg : WalletConfig) (env : ChainEnv) (pool : PoolState)
    (ttx : Option String) (amt : ℚ)
    (hfail : (launchAnnoyingCoin wcfg env pool ttx amt).record.success = false) :
    (processTradeEvent cfg st tr now r).2.recentLaunches = st.recentLaunches ∧
    (processTradeEvent cfg st tr now r).2.fbLaunches = st.fbLaunches ∧
    (launchAnnoyingCoin wcfg env pool ttx amt).record.error ≠ none := by
  obtain ⟨h1, h2⟩ := processTradeEvent_fail_keeps_history cfg st tr now r hr
  exact ⟨h1, h2, launch_fail_has_error wcfg env pool ttx amt hfail⟩

/-- Witness for the amended C3: a failed IPFS upload at a concrete input; the
history fields are unchanged and the returned record carries an error. -/
theorem only_success_recorded_witness :
    (processTradeEvent cfgA stA trA 50000 rFail).2.recentLaunches = stA.recentLaunches ∧
    (processTradeEvent cfgA stA trA 50000 rFail).2.fbLaunches = stA.fbLaunches ∧
    (launchAnnoyingCoin wcfgA envUploadFail poolA (some ("tx2")) 20).record.error ≠ none :=
  only_success_recorded cfgA stA trA 50000 rFail rfl
    wcfgA envUploadFail poolA (some ("tx2")) 20 rfl

/-- Claim C5 (counterexample): a completed launch attempt whose upload step
failed, with the wallet successfully acquired; the acquired wallet's counter
is *not* incremented, contradicting the claim that `recordLaunch` is called
after every attempt whether it succeeded or failed. -/
theorem failed_attempt_skips_record_launch :
    (getNextWallet wcfgA envUploadFail poolA).result = .ok wA ∧
    (launchAnnoyingCoin wcfgA envUploadFail poolA (some ("tx2")) 20).record.success = false ∧
    launchCountOf ("w0") poolA.childWallets = 3 ∧
    launchCountOf ("w0") (launchAnnoyingCoin wcfgA envUploadFail poolA (some ("tx2")) 20).wallets = 3 ∧
    ¬ launchCountOf ("w0")
        (launchAnnoyingCoin wcfgA envUploadFail poolA (some ("tx2")) 20).wallets = 3 + 1 :=
  ⟨rfl, rfl, rfl, rfl, by decide⟩

/-- Claim C5 (amended): the coordinator records wallet usage only on success:
a successful attempt increments the acquired wallet's counter by exactly one
(relative to the pool as it stood after acquisition), while a failed attempt
leaves the pool exactly as acquisition left it. -/
theorem record_launch_only_on_success
    (wcfg : WalletConfig) (env : ChainEnv) (pool : PoolState)
    (ttx : Option String) (amt : ℚ) :
    ((launchAnnoyingCoin wcfg env pool ttx amt).record.success = true →
      ∃ w, (getNextWallet wcfg env pool).result = .ok w ∧
        (launchAnnoyingCoin wcfg env pool ttx amt).record.wallet = some w.publicKey ∧
        (launchAnnoyingCoin wcfg env pool ttx amt).wallets
          = incrementWalletLaunches w.publicKey (getNextWallet wcfg env pool).wallets ∧
        launchCountOf w.publicKey (launchAnnoyingCoin wcfg env pool ttx amt).wallets
          = launchCountOf w.publicKey (getNextWallet wcfg env pool).wallets + 1) ∧
    ((launchAnnoyingCoin wcfg env pool ttx amt).record.success = false →
      (launchAnnoyingCoin wcfg env pool ttx amt).wallets
        = (getNextWallet wcfg env pool).wallets) := by
  simp only [launchAnnoyingCoin]
  cases hres : (getNextWallet wcfg env pool).result with
  | error e =>
    exact ⟨fun h => absurd h (by simp [failRecord]), fun _ => rfl⟩
  | ok w1 =>
    dsimp only
    split_ifs <;>
      first
        | exact ⟨fun h => absurd h (by simp [failRecord]), fun _ => rfl⟩
        | exact ⟨fun _ => ⟨w1, rfl, rfl, rfl,
            launchCountOf_increment w1.publicKey _
              ⟨w1, getNextWallet_ok_mem wcfg env pool w1 hres, rfl⟩⟩,
            fun h => absurd h (by simp)⟩

/-- Witness for the amended C5: with every external call succeeding, the
acquired wallet `w0` goes from 3 to 4 recorded launches. -/
theorem record_launch_only_on_success_witness :
    (launchAnnoyingCoin wcfgA envOk poolA (some ("tx2")) 20).record.success = true ∧
    (∃ w, (getNextWallet wcfgA envOk poolA).result = .ok w ∧
      (launchAnnoyingCoin wcfgA envOk poolA (some ("tx2")) 20).record.wallet = some w.publicKey ∧
      (launchAnnoyingCoin wcfgA envOk poolA (some ("tx2")) 20).wallets
        = incrementWalletLaunches w.publicKey (getNextWallet wcfgA envOk poolA).wallets ∧
      launchCountOf w.publicKey (launchAnnoyingCoin wcfgA envOk poolA (some ("tx2")) 20).wallets
        = launchCountOf w.publicKey (getNextWallet wcfgA envOk poolA).wallets + 1) :=
  ⟨rfl, (record_launch_only_on_success wcfgA envOk poolA (some ("tx2")) 20).1 rfl⟩

/-- Claim C6: a failed launch attempt never increments any wallet's launch
counter — after any attempt whose record has `success = false`, every public
key's recorded count equals what the pool held before the attempt. -/
theorem failed_launch_no_increment
    (wcfg : WalletConfig) (env : ChainEnv) (pool : PoolState)
    (ttx : Option String) (amt : ℚ)
    (h : (launchAnnoyingCoin wcfg env pool ttx amt).record.success = false) (pk : String) :
    launchCountOf pk (launchAnnoyingCoin wcfg env pool ttx amt).wallets
      = launchCountOf pk pool.childWallets := by
  have hcnt := getNextWallet_counts wcfg env pool pk
  revert h
  simp only [launchAnnoyingCoin]
  cases hres : (getNextWallet wcfg env pool).result with
  | error e => intro h; simpa using hcnt
  | ok w1 =>
    dsimp only
    intro h
    split_ifs at h ⊢ <;> simp_all

/-- Witness for C6: the upload-failure attempt leaves `w0` at 3 launches. -/
theorem failed_launch_no_increment_witness :
    (launchAnnoyingCoin wcfgA envUploadFail poolA (some ("tx2")) 20).record.success = false ∧
    launchCountOf ("w0") (launchAnnoyingCoin wcfgA envUploadFail poolA (some ("tx2")) 20).wallets
      = launchCountOf ("w0") poolA.childWallets :=
  ⟨rfl, failed_launch_no_increment wcfgA envUploadFail poolA (some ("tx2")) 20 rfl ("w0")⟩

/-- Claim C8: when no pooled wallet qualifies, provisioning from the master
identity checks `masterBalance < minMasterReserve + perWalletFunding` before
any transfer: below the bound it fails with the insufficient-master-balance
error and no transfer is attempted; at or above the bound (and with the
transfer succeeding) a fresh zero-count wallet is funded, appended to the
pool, and returned. -/
theorem provision_checks_master_balance_first
    (cfg : WalletConfig) (env : ChainEnv) (pool : PoolState)
    (hscan : findAvailable cfg env pool.childWallets pool.currentWalletIndex = none)
    (hload : env.masterLoaded = true) :
    (env.masterBalance < cfg.MIN_MASTER_BALANCE + cfg.SOL_PER_WALLET →
      (getNextWallet cfg env pool).result = .error .MasterTooLow ∧
      (getNextWallet cfg env pool).transferAttempted = false ∧
      (getNextWallet cfg env pool).wallets = pool.childWallets) ∧
    (cfg.MIN_MASTER_BALANCE + cfg.SOL_PER_WALLET ≤ env.masterBalance →
      env.transferOk = true →
      (getNextWallet cfg env pool).result = .ok ⟨env.newWalletPk, 0, env.now⟩ ∧
      (getNextWallet cfg env pool).wallets
        = pool.childWallets ++ [⟨env.newWalletPk, 0, env.now⟩]) := by
  constructor
  · intro hlow
    have hg : generateNewWallet cfg env pool.childWallets
        = ⟨.error .MasterTooLow, pool.childWallets, false⟩ := by
      simp [generateNewWallet, hload, hlow]
    simp [getNextWallet, hscan, hg]
  · intro hge htr
    have hg : generateNewWallet cfg env pool.childWallets
        = ⟨.ok ⟨env.newWalletPk, 0, env.now⟩,
           pool.childWallets ++ [⟨env.newWalletPk, 0, env.now⟩], true⟩ := by
      simp [generateNewWallet, hload, htr, not_lt.mpr hge]
    simp [getNextWallet, hscan, hg]

/-- Witness for C8, applied twice at an empty pool: a 2 SOL master balance
fails with `MasterTooLow` and no transfer; a 5 SOL master balance provisions
and returns the fresh wallet. -/
theorem provision_checks_master_balance_first_witness :
    ((getNextWallet wcfgA envLowMaster poolEmpty).result = .error .MasterTooLow ∧
      (getNextWallet wcfgA envLowMaster poolEmpty).transferAttempted = false) ∧
    ((getNextWallet wcfgA envOk poolEmpty).result = .ok ⟨("wNew"), 0, 777⟩ ∧
      (getNextWallet wcfgA envOk poolEmpty).wallets = [⟨("wNew"), 0, 777⟩]) :=
  ⟨⟨((provision_checks_master_balance_first wcfgA envLowMaster poolEmpty rfl rfl).1
      (by norm_num [envLowMaster, envOk, wcfgA])).1,
    ((provision_checks_master_balance_first wcfgA envLowMaster poolEmpty rfl rfl).1
      (by norm_num [envLowMaster, envOk, wcfgA])).2.1⟩,
   ⟨((provision_checks_master_balance_first wcfgA envOk poolEmpty rfl rfl).2
      (by norm_num [envOk, wcfgA]) rfl).1,
    ((provision_checks_master_balance_first wcfgA envOk poolEmpty rfl rfl).2
      (by norm_num [envOk, wcfgA]) rfl).2⟩⟩

end Ann
